import Mathlib

/-!
Verification development for `entities.py`: five data entities (`User`, `Item`,
`ItemType`, `Demand`, `Application`), each with a constructor, `to_dict`
(serialize to a flat field mapping) and `from_dict` (deserialize from a field
mapping).

Modelling choices:
* Python dictionary values are modelled by `PyVal` (a string, or a list of
  strings — the only value shapes this module stores: `ItemType.attributes`
  is a list, every other field is a string).  Entity fields hold `PyVal`, as
  Python fields are dynamically typed.
* A mapping is an association list `Dict`; `lookupKey` is first-match lookup,
  matching Python dict key lookup (Python dicts have unique keys, which the
  first-match discipline subsumes).
* `data["k"]` is `pyIndex`, returning `Except.error ("KeyError: " ++ k)` on a
  missing key, as in Python; `data.get("k", v)` is `pyGet`.
* The wall clock is an explicit parameter: `datetime.now()` is modelled by a
  `PyDateTime` argument `t`, and `strftime` of the "%Y-%m-%d %H:%M:%S" pattern
  by the `strftime` function below (zero-padded fields, in-range clock
  readings).
* Methods that could in principle mutate state are also given state-passing
  views (`toDictSt`, `fromDictSt`) returning the result together with the
  post-state of the object / of the input mapping, so that absence of side
  effects is a stated property.
-/

namespace Entities

/-- A Python value stored in an entity field or a serialized mapping:
a string, or a list of strings (used only by `ItemType.attributes`). -/
inductive PyVal where
  | str : String → PyVal
  | strList : List String → PyVal
deriving DecidableEq, Repr

/-- A flat field mapping, as produced by `to_dict` and consumed by
`from_dict`. -/
abbrev Dict := List (String × PyVal)

/-- First-match key lookup in a mapping (Python dict lookup). -/
def lookupKey (k : String) : Dict → Option PyVal
  | [] => none
  | p :: rest => if p.1 = k then some p.2 else lookupKey k rest

/-- The key list of a mapping. -/
def Dict.keys (d : Dict) : List String := d.map Prod.fst

/-- Python `data[k]`: the value at `k`, or a `KeyError` when `k` is absent. -/
def pyIndex (data : Dict) (k : String) : Except String PyVal :=
  match lookupKey k data with
  | some v => Except.ok v
  | none => Except.error ("KeyError: " ++ k)

/-- Python `data.get(k, d)`: the value at `k`, or the default `d` when `k`
is absent. -/
def pyGet (data : Dict) (k : String) (d : PyVal) : PyVal :=
  (lookupKey k data).getD d

/-- A wall-clock reading, the result of `datetime.now()`. -/
structure PyDateTime where
  year : Nat
  month : Nat
  day : Nat
  hour : Nat
  minute : Nat
  second : Nat
deriving DecidableEq, Repr

/-- Two-digit zero-padded decimal rendering (the `%m`, `%d`, `%H`, `%M`, `%S`
fields of `strftime`, whose clock values are below 100). -/
def pad2 (n : Nat) : String :=
  String.mk [Nat.digitChar (n / 10 % 10), Nat.digitChar (n % 10)]

/-- Four-digit zero-padded decimal rendering (the `%Y` field of `strftime`,
whose clock values from a real clock are below 10000). -/
def pad4 (n : Nat) : String :=
  String.mk [Nat.digitChar (n / 1000 % 10), Nat.digitChar (n / 100 % 10),
    Nat.digitChar (n / 10 % 10), Nat.digitChar (n % 10)]

/-- Modelled from the Python standard library:
`datetime.strftime` with the pattern `"%Y-%m-%d %H:%M:%S"` used throughout
`entities.py`, for in-range clock readings. -/
def strftime (t : PyDateTime) : String :=
  pad4 t.year ++ "-" ++ pad2 t.month ++ "-" ++ pad2 t.day ++ " " ++
    pad2 t.hour ++ ":" ++ pad2 t.minute ++ ":" ++ pad2 t.second

/-- A string is syntactically a `YYYY-MM-DD HH:MM:SS` timestamp. -/
def isTimestampFormat (s : String) : Bool :=
  match s.toList with
  | [y1, y2, y3, y4, c1, m1, m2, c2, d1, d2, c3, h1, h2, c4, n1, n2, c5, s1, s2] =>
    y1.isDigit && y2.isDigit && y3.isDigit && y4.isDigit &&
      m1.isDigit && m2.isDigit && d1.isDigit && d2.isDigit &&
      h1.isDigit && h2.isDigit && n1.isDigit && n2.isDigit &&
      s1.isDigit && s2.isDigit &&
      (c1 == '-') && (c2 == '-') && (c3 == ' ') && (c4 == ':') && (c5 == ':')
  | _ => false

theorem digitChar_mod_isDigit (n : Nat) : (Nat.digitChar (n % 10)).isDigit = true := by
  have h : n % 10 < 10 := Nat.mod_lt _ (by decide)
  have hall : ∀ m, m < 10 → (Nat.digitChar m).isDigit = true := by decide
  exact hall _ h

theorem strftime_isTimestampFormat (t : PyDateTime) :
    isTimestampFormat (strftime t) = true := by
  show isTimestampFormat (strftime t) = true
  have hlist : (strftime t).toList =
      [Nat.digitChar (t.year / 1000 % 10), Nat.digitChar (t.year / 100 % 10),
        Nat.digitChar (t.year / 10 % 10), Nat.digitChar (t.year % 10), '-',
        Nat.digitChar (t.month / 10 % 10), Nat.digitChar (t.month % 10), '-',
        Nat.digitChar (t.day / 10 % 10), Nat.digitChar (t.day % 10), ' ',
        Nat.digitChar (t.hour / 10 % 10), Nat.digitChar (t.hour % 10), ':',
        Nat.digitChar (t.minute / 10 % 10), Nat.digitChar (t.minute % 10), ':',
        Nat.digitChar (t.second / 10 % 10), Nat.digitChar (t.second % 10)] := by
    simp [strftime, pad4, pad2, String.toList]
  simp only [isTimestampFormat, hlist]
  simp [digitChar_mod_isDigit]

/-! ## User -/

structure User where
  user_id : PyVal
  username : PyVal
  password : PyVal
  contact_info : PyVal
  role : PyVal
deriving DecidableEq, Repr

/-- `User.__init__`; `role` is Python-optional with default `"普通用户"`,
modelled by an `Option` argument (`none` means the argument was omitted). -/
def User.construct (user_id username password contact_info : PyVal)
    (role : Option PyVal) : User :=
  { user_id, username, password, contact_info,
    role := role.getD (PyVal.str "普通用户") }

def User.to_dict (self : User) : Dict :=
  [("user_id", self.user_id), ("username", self.username),
    ("password", self.password), ("contact_info", self.contact_info),
    ("role", self.role)]

def User.from_dict (data : Dict) : Except String User := do
  let user_id ← pyIndex data "user_id"
  let username ← pyIndex data "username"
  let password ← pyIndex data "password"
  let contact_info ← pyIndex data "contact_info"
  pure (User.construct user_id username password contact_info
    (some (pyGet data "role" (PyVal.str "普通用户"))))

/-- The keys `User.from_dict` reads with `data[...]` (no default). -/
def User.requiredKeys : List String :=
  ["user_id", "username", "password", "contact_info"]

/-- All field keys of a serialized `User`. -/
def User.fieldKeys : List String :=
  ["user_id", "username", "password", "contact_info", "role"]

/-- State-passing view of the `to_dict` method: its result together with the
post-state of `self`.  The method body is a dict literal of field reads and
contains no assignment, so `self` comes back unchanged. -/
def User.toDictSt (self : User) : Dict × User :=
  (User.to_dict self, self)

/-- State-passing view of `from_dict`: its result together with the post-state
of the input mapping.  The body only reads `data`, so `data` comes back
unchanged. -/
def User.fromDictSt (data : Dict) : Except String User × Dict :=
  (User.from_dict data, data)

example :
    User.from_dict (User.to_dict
      (User.construct (PyVal.str "u1") (PyVal.str "alice") (PyVal.str "pw")
        (PyVal.str "138") none)) =
    Except.ok (User.construct (PyVal.str "u1") (PyVal.str "alice")
      (PyVal.str "pw") (PyVal.str "138") none) := by
  rfl

example : User.from_dict [] = Except.error "KeyError: user_id" := by rfl

/-! ## Item -/

structure Item where
  item_id : PyVal
  item_name : PyVal
  description : PyVal
  item_type : PyVal
  image : PyVal
  contact_info : PyVal
  status : PyVal
  owner_id : PyVal
  create_time : PyVal
deriving DecidableEq, Repr

/-- `Item.__init__`; `image` defaults to `""`, `status` to `"已发布"`;
`create_time` is not an argument — it is set to the current time `t`,
formatted. -/
def Item.construct (item_id item_name description item_type contact_info owner_id : PyVal)
    (image : Option PyVal) (status : Option PyVal) (t : PyDateTime) : Item :=
  { item_id, item_name, description, item_type,
    image := image.getD (PyVal.str ""),
    contact_info,
    status := status.getD (PyVal.str "已发布"),
    owner_id,
    create_time := PyVal.str (strftime t) }

def Item.to_dict (self : Item) : Dict :=
  [("item_id", self.item_id), ("item_name", self.item_name),
    ("description", self.description), ("item_type", self.item_type),
    ("image", self.image), ("contact_info", self.contact_info),
    ("status", self.status), ("owner_id", self.owner_id),
    ("create_time", self.create_time)]

/-- `Item.from_dict`; `t` is the wall clock at the call: the constructor
stamps `strftime t`, and the `create_time` fallback is also `strftime t`. -/
def Item.from_dict (data : Dict) (t : PyDateTime) : Except String Item := do
  let item_id ← pyIndex data "item_id"
  let item_name ← pyIndex data "item_name"
  let description ← pyIndex data "description"
  let item_type ← pyIndex data "item_type"
  let contact_info ← pyIndex data "contact_info"
  let owner_id ← pyIndex data "owner_id"
  let item := Item.construct item_id item_name description item_type contact_info owner_id
    (some (pyGet data "image" (PyVal.str "")))
    (some (pyGet data "status" (PyVal.str "已发布"))) t
  pure { item with create_time := pyGet data "create_time" (PyVal.str (strftime t)) }

/-- The keys `Item.from_dict` reads with `data[...]` (no default). -/
def Item.requiredKeys : List String :=
  ["item_id", "item_name", "description", "item_type", "contact_info", "owner_id"]

/-- All field keys of a serialized `Item`. -/
def Item.fieldKeys : List String :=
  ["item_id", "item_name", "description", "item_type", "image", "contact_info",
    "status", "owner_id", "create_time"]

/-- State-passing view of the `to_dict` method (result, post-state of self). -/
def Item.toDictSt (self : Item) : Dict × Item :=
  (Item.to_dict self, self)

/-- State-passing view of `from_dict` (result, post-state of the mapping). -/
def Item.fromDictSt (data : Dict) (t : PyDateTime) : Except String Item × Dict :=
  (Item.from_dict data t, data)

/-! ## ItemType -/

structure ItemType where
  type_id : PyVal
  type_name : PyVal
  attributes : PyVal
deriving DecidableEq, Repr

/-- `ItemType.__init__`: all three fields are required arguments;
`attributes` is a list of attribute labels. -/
def ItemType.construct (type_id type_name attributes : PyVal) : ItemType :=
  { type_id, type_name, attributes }

def ItemType.to_dict (self : ItemType) : Dict :=
  [("type_id", self.type_id), ("type_name", self.type_name),
    ("attributes", self.attributes)]

def ItemType.from_dict (data : Dict) : Except String ItemType := do
  let type_id ← pyIndex data "type_id"
  let type_name ← pyIndex data "type_name"
  let attributes ← pyIndex data "attributes"
  pure (ItemType.construct type_id type_name attributes)

/-- The keys `ItemType.from_dict` reads with `data[...]` (no default). -/
def ItemType.requiredKeys : List String :=
  ["type_id", "type_name", "attributes"]

/-- All field keys of a serialized `ItemType`. -/
def ItemType.fieldKeys : List String :=
  ["type_id", "type_name", "attributes"]

/-- State-passing view of the `to_dict` method (result, post-state of self). -/
def ItemType.toDictSt (self : ItemType) : Dict × ItemType :=
  (ItemType.to_dict self, self)

/-- State-passing view of `from_dict` (result, post-state of the mapping). -/
def ItemType.fromDictSt (data : Dict) : Except String ItemType × Dict :=
  (ItemType.from_dict data, data)

/-! ## Demand -/

structure Demand where
  demand_id : PyVal
  demand_type : PyVal
  description : PyVal
  publisher_id : PyVal
  create_time : PyVal
deriving DecidableEq, Repr

/-- `Demand.__init__`; `create_time` is not an argument — it is set to the
current time `t`, formatted. -/
def Demand.construct (demand_id demand_type description publisher_id : PyVal)
    (t : PyDateTime) : Demand :=
  { demand_id, demand_type, description, publisher_id,
    create_time := PyVal.str (strftime t) }

def Demand.to_dict (self : Demand) : Dict :=
  [("demand_id", self.demand_id), ("demand_type", self.demand_type),
    ("description", self.description), ("publisher_id", self.publisher_id),
    ("create_time", self.create_time)]

def Demand.from_dict (data : Dict) (t : PyDateTime) : Except String Demand := do
  let demand_id ← pyIndex data "demand_id"
  let demand_type ← pyIndex data "demand_type"
  let description ← pyIndex data "description"
  let publisher_id ← pyIndex data "publisher_id"
  let demand := Demand.construct demand_id demand_type description publisher_id t
  pure { demand with create_time := pyGet data "create_time" (PyVal.str (strftime t)) }

/-- The keys `Demand.from_dict` reads with `data[...]` (no default). -/
def Demand.requiredKeys : List String :=
  ["demand_id", "demand_type", "description", "publisher_id"]

/-- All field keys of a serialized `Demand`. -/
def Demand.fieldKeys : List String :=
  ["demand_id", "demand_type", "description", "publisher_id", "create_time"]

/-- State-passing view of the `to_dict` method (result, post-state of self). -/
def Demand.toDictSt (self : Demand) : Dict × Demand :=
  (Demand.to_dict self, self)

/-- State-passing view of `from_dict` (result, post-state of the mapping). -/
def Demand.fromDictSt (data : Dict) (t : PyDateTime) : Except String Demand × Dict :=
  (Demand.from_dict data t, data)

/-! ## Application -/

structure Application where
  application_id : PyVal
  app_type : PyVal
  content : PyVal
  app_status : PyVal
  applicant_id : PyVal
  create_time : PyVal
deriving DecidableEq, Repr

/-- `Application.__init__`; `app_status` defaults to `"待处理"`;
`create_time` is not an argument — it is set to the current time `t`,
formatted. -/
def Application.construct (application_id app_type content applicant_id : PyVal)
    (app_status : Option PyVal) (t : PyDateTime) : Application :=
  { application_id, app_type, content,
    app_status := app_status.getD (PyVal.str "待处理"),
    applicant_id,
    create_time := PyVal.str (strftime t) }

def Application.to_dict (self : Application) : Dict :=
  [("application_id", self.application_id), ("app_type", self.app_type),
    ("content", self.content), ("app_status", self.app_status),
    ("applicant_id", self.applicant_id), ("create_time", self.create_time)]

def Application.from_dict (data : Dict) (t : PyDateTime) : Except String Application := do
  let application_id ← pyIndex data "application_id"
  let app_type ← pyIndex data "app_type"
  let content ← pyIndex data "content"
  let applicant_id ← pyIndex data "applicant_id"
  let application := Application.construct application_id app_type content applicant_id
    (some (pyGet data "app_status" (PyVal.str "待处理"))) t
  pure { application with
    create_time := pyGet data "create_time" (PyVal.str (strftime t)) }

/-- The keys `Application.from_dict` reads with `data[...]` (no default). -/
def Application.requiredKeys : List String :=
  ["application_id", "app_type", "content", "applicant_id"]

/-- All field keys of a serialized `Application`. -/
def Application.fieldKeys : List String :=
  ["application_id", "app_type", "content", "app_status", "applicant_id",
    "create_time"]

/-- State-passing view of the `to_dict` method (result, post-state of self). -/
def Application.toDictSt (self : Application) : Dict × Application :=
  (Application.to_dict self, self)

/-- State-passing view of `from_dict` (result, post-state of the mapping). -/
def Application.fromDictSt (data : Dict) (t : PyDateTime) :
    Except String Application × Dict :=
  (Application.from_dict data t, data)

/-! ## Helper lemmas -/

theorem pyIndex_eq_error {data : Dict} {k : String} (h : lookupKey k data = none) :
    pyIndex data k = Except.error ("KeyError: " ++ k) := by
  simp [pyIndex, h]

theorem pyIndex_eq_ok {data : Dict} {k : String} {v : PyVal}
    (h : lookupKey k data = some v) : pyIndex data k = Except.ok v := by
  simp [pyIndex, h]

theorem except_bind_ok {α β : Type} (v : α) (f : α → Except String β) :
    (Except.ok v >>= f) = f v := rfl

theorem except_bind_error {α β : Type} (e : String) (f : α → Except String β) :
    ((Except.error e : Except String α) >>= f) = Except.error e := rfl

theorem except_map_ok {α β : Type} (v : α) (f : α → β) :
    (f <$> (Except.ok v : Except String α)) = Except.ok (f v) := rfl

theorem except_map_error {α β : Type} (e : String) (f : α → β) :
    (f <$> (Except.error e : Except String α)) = Except.error e := rfl

theorem except_pure {α : Type} (v : α) :
    (pure v : Except String α) = Except.ok v := rfl

/-- Keep only the entries of a mapping whose key is in `ks`. -/
def filterKeys (ks : List String) : Dict → Dict
  | [] => []
  | p :: rest => if p.1 ∈ ks then p :: filterKeys ks rest else filterKeys ks rest

theorem lookupKey_filterKeys (ks : List String) (k : String) (d : Dict)
    (h : k ∈ ks) : lookupKey k (filterKeys ks d) = lookupKey k d := by
  induction d with
  | nil => rfl
  | cons p rest ih =>
    by_cases hp : p.1 ∈ ks
    · simp only [filterKeys, if_pos hp, lookupKey]
      by_cases hk : p.1 = k
      · simp [hk]
      · simp [hk, ih]
    · have hne : p.1 ≠ k := fun e => hp (e ▸ h)
      simp [filterKeys, hp, lookupKey, hne, ih]

theorem User.from_dict_ok_role {d : Dict} {u : User}
    (h : User.from_dict d = Except.ok u) :
    u.role = pyGet d "role" (PyVal.str "普通用户") := by
  rcases h1 : lookupKey "user_id" d with _ | v1
  · simp [User.from_dict, pyIndex_eq_error h1, except_bind_error] at h
  rcases h2 : lookupKey "username" d with _ | v2
  · simp [User.from_dict, pyIndex_eq_ok h1, pyIndex_eq_error h2,
      except_bind_ok, except_bind_error] at h
  rcases h3 : lookupKey "password" d with _ | v3
  · simp [User.from_dict, pyIndex_eq_ok h1, pyIndex_eq_ok h2,
      pyIndex_eq_error h3, except_bind_ok, except_bind_error] at h
  rcases h4 : lookupKey "contact_info" d with _ | v4
  · simp [User.from_dict, pyIndex_eq_ok h1, pyIndex_eq_ok h2, pyIndex_eq_ok h3,
      pyIndex_eq_error h4, except_bind_ok, except_bind_error,
      except_map_error] at h
  · simp [User.from_dict, pyIndex_eq_ok h1, pyIndex_eq_ok h2, pyIndex_eq_ok h3,
      pyIndex_eq_ok h4, except_bind_ok, except_map_ok] at h
    subst h
    rfl

theorem Item.from_dict_ok_optional_fields {d : Dict} {t : PyDateTime} {i : Item}
    (h : Item.from_dict d t = Except.ok i) :
    i.image = pyGet d "image" (PyVal.str "") ∧
      i.status = pyGet d "status" (PyVal.str "已发布") ∧
      i.create_time = pyGet d "create_time" (PyVal.str (strftime t)) := by
  rcases h1 : lookupKey "item_id" d with _ | v1
  · simp [Item.from_dict, pyIndex_eq_error h1, except_bind_error] at h
  rcases h2 : lookupKey "item_name" d with _ | v2
  · simp [Item.from_dict, pyIndex_eq_ok h1, pyIndex_eq_error h2,
      except_bind_ok, except_bind_error] at h
  rcases h3 : lookupKey "description" d with _ | v3
  · simp [Item.from_dict, pyIndex_eq_ok h1, pyIndex_eq_ok h2,
      pyIndex_eq_error h3, except_bind_ok, except_bind_error] at h
  rcases h4 : lookupKey "item_type" d with _ | v4
  · simp [Item.from_dict, pyIndex_eq_ok h1, pyIndex_eq_ok h2, pyIndex_eq_ok h3,
      pyIndex_eq_error h4, except_bind_ok, except_bind_error] at h
  rcases h5 : lookupKey "contact_info" d with _ | v5
  · simp [Item.from_dict, pyIndex_eq_ok h1, pyIndex_eq_ok h2, pyIndex_eq_ok h3,
      pyIndex_eq_ok h4, pyIndex_eq_error h5, except_bind_ok,
      except_bind_error] at h
  rcases h6 : lookupKey "owner_id" d with _ | v6
  · simp [Item.from_dict, pyIndex_eq_ok h1, pyIndex_eq_ok h2, pyIndex_eq_ok h3,
      pyIndex_eq_ok h4, pyIndex_eq_ok h5, pyIndex_eq_error h6, except_bind_ok,
      except_bind_error, except_map_error] at h
  · simp [Item.from_dict, pyIndex_eq_ok h1, pyIndex_eq_ok h2, pyIndex_eq_ok h3,
      pyIndex_eq_ok h4, pyIndex_eq_ok h5, pyIndex_eq_ok h6, except_bind_ok,
      except_map_ok] at h
    subst h
    exact ⟨rfl, rfl, rfl⟩

theorem Demand.from_dict_ok_create_time {d : Dict} {t : PyDateTime} {dm : Demand}
    (h : Demand.from_dict d t = Except.ok dm) :
    dm.create_time = pyGet d "create_time" (PyVal.str (strftime t)) := by
  rcases h1 : lookupKey "demand_id" d with _ | v1
  · simp [Demand.from_dict, pyIndex_eq_error h1, except_bind_error] at h
  rcases h2 : lookupKey "demand_type" d with _ | v2
  · simp [Demand.from_dict, pyIndex_eq_ok h1, pyIndex_eq_error h2,
      except_bind_ok, except_bind_error] at h
  rcases h3 : lookupKey "description" d with _ | v3
  · simp [Demand.from_dict, pyIndex_eq_ok h1, pyIndex_eq_ok h2,
      pyIndex_eq_error h3, except_bind_ok, except_bind_error] at h
  rcases h4 : lookupKey "publisher_id" d with _ | v4
  · simp [Demand.from_dict, pyIndex_eq_ok h1, pyIndex_eq_ok h2,
      pyIndex_eq_ok h3, pyIndex_eq_error h4, except_bind_ok,
      except_bind_error, except_map_error] at h
  · simp [Demand.from_dict, pyIndex_eq_ok h1, pyIndex_eq_ok h2,
      pyIndex_eq_ok h3, pyIndex_eq_ok h4, except_bind_ok, except_map_ok] at h
    subst h
    rfl

theorem Application.from_dict_ok_status_time {d : Dict} {t : PyDateTime}
    {ap : Application} (h : Application.from_dict d t = Except.ok ap) :
    ap.app_status = pyGet d "app_status" (PyVal.str "待处理") ∧
      ap.create_time = pyGet d "create_time" (PyVal.str (strftime t)) := by
  rcases h1 : lookupKey "application_id" d with _ | v1
  · simp [Application.from_dict, pyIndex_eq_error h1, except_bind_error] at h
  rcases h2 : lookupKey "app_type" d with _ | v2
  · simp [Application.from_dict, pyIndex_eq_ok h1, pyIndex_eq_error h2,
      except_bind_ok, except_bind_error] at h
  rcases h3 : lookupKey "content" d with _ | v3
  · simp [Application.from_dict, pyIndex_eq_ok h1, pyIndex_eq_ok h2,
      pyIndex_eq_error h3, except_bind_ok, except_bind_error] at h
  rcases h4 : lookupKey "applicant_id" d with _ | v4
  · simp [Application.from_dict, pyIndex_eq_ok h1, pyIndex_eq_ok h2,
      pyIndex_eq_ok h3, pyIndex_eq_error h4, except_bind_ok,
      except_bind_error, except_map_error] at h
  · simp [Application.from_dict, pyIndex_eq_ok h1, pyIndex_eq_ok h2,
      pyIndex_eq_ok h3, pyIndex_eq_ok h4, except_bind_ok, except_map_ok] at h
    subst h
    exact ⟨rfl, rfl⟩

/-! ## Claim theorems -/

/-- C1: for every one of the five entities and all field values,
`from_dict (to_dict (construct fields))` yields an entity whose fields equal
the constructed entity's fields — `create_time` is carried through unchanged
for `Item`, `Demand` and `Application` (the clock `t'` at deserialize time is
irrelevant), and defaulted fields are materialized to their stated defaults
by `construct` and preserved by the round trip. -/
theorem roundtrip_from_dict_to_dict :
    (∀ (a b c d : PyVal) (r : Option PyVal),
      User.from_dict (User.to_dict (User.construct a b c d r)) =
        Except.ok (User.construct a b c d r)) ∧
    (∀ (a b c d e f : PyVal) (img st : Option PyVal) (t t' : PyDateTime),
      Item.from_dict (Item.to_dict (Item.construct a b c d e f img st t)) t' =
        Except.ok (Item.construct a b c d e f img st t)) ∧
    (∀ (a b c : PyVal),
      ItemType.from_dict (ItemType.to_dict (ItemType.construct a b c)) =
        Except.ok (ItemType.construct a b c)) ∧
    (∀ (a b c d : PyVal) (t t' : PyDateTime),
      Demand.from_dict (Demand.to_dict (Demand.construct a b c d t)) t' =
        Except.ok (Demand.construct a b c d t)) ∧
    (∀ (a b c d : PyVal) (st : Option PyVal) (t t' : PyDateTime),
      Application.from_dict (Application.to_dict
          (Application.construct a b c d st t)) t' =
        Except.ok (Application.construct a b c d st t)) := by
  refine ⟨?_, ?_, ?_, ?_, ?_⟩ <;> intros <;> rfl

/-- C2: for every one of the five entities, `from_dict` applied to a mapping
that lacks any required key fails with a missing-required-field error
(a `KeyError` naming a required key that is absent from the mapping) rather
than producing a partially-populated entity; the empty mapping is the
degenerate instance (see the witness). -/
theorem from_dict_missing_required_fails :
    (∀ (d : Dict) (k : String), k ∈ User.requiredKeys → lookupKey k d = none →
      ∃ k', k' ∈ User.requiredKeys ∧ lookupKey k' d = none ∧
        User.from_dict d = Except.error ("KeyError: " ++ k')) ∧
    (∀ (d : Dict) (t : PyDateTime) (k : String), k ∈ Item.requiredKeys →
      lookupKey k d = none →
      ∃ k', k' ∈ Item.requiredKeys ∧ lookupKey k' d = none ∧
        Item.from_dict d t = Except.error ("KeyError: " ++ k')) ∧
    (∀ (d : Dict) (k : String), k ∈ ItemType.requiredKeys → lookupKey k d = none →
      ∃ k', k' ∈ ItemType.requiredKeys ∧ lookupKey k' d = none ∧
        ItemType.from_dict d = Except.error ("KeyError: " ++ k')) ∧
    (∀ (d : Dict) (t : PyDateTime) (k : String), k ∈ Demand.requiredKeys →
      lookupKey k d = none →
      ∃ k', k' ∈ Demand.requiredKeys ∧ lookupKey k' d = none ∧
        Demand.from_dict d t = Except.error ("KeyError: " ++ k')) ∧
    (∀ (d : Dict) (t : PyDateTime) (k : String), k ∈ Application.requiredKeys →
      lookupKey k d = none →
      ∃ k', k' ∈ Application.requiredKeys ∧ lookupKey k' d = none ∧
        Application.from_dict d t = Except.error ("KeyError: " ++ k')) := by
  refine ⟨?_, ?_, ?_, ?_, ?_⟩
  · intro d k hk hnone
    rcases h1 : lookupKey "user_id" d with _ | v1
    · exact ⟨"user_id", by simp [User.requiredKeys], h1,
        by simp [User.from_dict, pyIndex_eq_error h1, except_bind_error]⟩
    rcases h2 : lookupKey "username" d with _ | v2
    · exact ⟨"username", by simp [User.requiredKeys], h2,
        by simp [User.from_dict, pyIndex_eq_ok h1, pyIndex_eq_error h2,
          except_bind_ok, except_bind_error]⟩
    rcases h3 : lookupKey "password" d with _ | v3
    · exact ⟨"password", by simp [User.requiredKeys], h3,
        by simp [User.from_dict, pyIndex_eq_ok h1, pyIndex_eq_ok h2,
          pyIndex_eq_error h3, except_bind_ok, except_bind_error]⟩
    rcases h4 : lookupKey "contact_info" d with _ | v4
    · exact ⟨"contact_info", by simp [User.requiredKeys], h4,
        by simp [User.from_dict, pyIndex_eq_ok h1, pyIndex_eq_ok h2,
          pyIndex_eq_ok h3, pyIndex_eq_error h4, except_bind_ok,
          except_bind_error, except_map_error]⟩
    · exfalso
      simp [User.requiredKeys] at hk
      rcases hk with rfl | rfl | rfl | rfl <;> simp_all
  · intro d t k hk hnone
    rcases h1 : lookupKey "item_id" d with _ | v1
    · exact ⟨"item_id", by simp [Item.requiredKeys], h1,
        by simp [Item.from_dict, pyIndex_eq_error h1, except_bind_error]⟩
    rcases h2 : lookupKey "item_name" d with _ | v2
    · exact ⟨"item_name", by simp [Item.requiredKeys], h2,
        by simp [Item.from_dict, pyIndex_eq_ok h1, pyIndex_eq_error h2,
          except_bind_ok, except_bind_error]⟩
    rcases h3 : lookupKey "description" d with _ | v3
    · exact ⟨"description", by simp [Item.requiredKeys], h3,
        by simp [Item.from_dict, pyIndex_eq_ok h1, pyIndex_eq_ok h2,
          pyIndex_eq_error h3, except_bind_ok, except_bind_error]⟩
    rcases h4 : lookupKey "item_type" d with _ | v4
    · exact ⟨"item_type", by simp [Item.requiredKeys], h4,
        by simp [Item.from_dict, pyIndex_eq_ok h1, pyIndex_eq_ok h2,
          pyIndex_eq_ok h3, pyIndex_eq_error h4, except_bind_ok,
          except_bind_error]⟩
    rcases h5 : lookupKey "contact_info" d with _ | v5
    · exact ⟨"contact_info", by simp [Item.requiredKeys], h5,
        by simp [Item.from_dict, pyIndex_eq_ok h1, pyIndex_eq_ok h2,
          pyIndex_eq_ok h3, pyIndex_eq_ok h4, pyIndex_eq_error h5,
          except_bind_ok, except_bind_error]⟩
    rcases h6 : lookupKey "owner_id" d with _ | v6
    · exact ⟨"owner_id", by simp [Item.requiredKeys], h6,
        by simp [Item.from_dict, pyIndex_eq_ok h1, pyIndex_eq_ok h2,
          pyIndex_eq_ok h3, pyIndex_eq_ok h4, pyIndex_eq_ok h5,
          pyIndex_eq_error h6, except_bind_ok, except_bind_error,
          except_map_error]⟩
    · exfalso
      simp [Item.requiredKeys] at hk
      rcases hk with rfl | rfl | rfl | rfl | rfl | rfl <;> simp_all
  · intro d k hk hnone
    rcases h1 : lookupKey "type_id" d with _ | v1
    · exact ⟨"type_id", by simp [ItemType.requiredKeys], h1,
        by simp [ItemType.from_dict, pyIndex_eq_error h1, except_bind_error]⟩
    rcases h2 : lookupKey "type_name" d with _ | v2
    · exact ⟨"type_name", by simp [ItemType.requiredKeys], h2,
        by simp [ItemType.from_dict, pyIndex_eq_ok h1, pyIndex_eq_error h2,
          except_bind_ok, except_bind_error]⟩
    rcases h3 : lookupKey "attributes" d with _ | v3
    · exact ⟨"attributes", by simp [ItemType.requiredKeys], h3,
        by simp [ItemType.from_dict, pyIndex_eq_ok h1, pyIndex_eq_ok h2,
          pyIndex_eq_error h3, except_bind_ok, except_bind_error,
          except_map_error]⟩
    · exfalso
      simp [ItemType.requiredKeys] at hk
      rcases hk with rfl | rfl | rfl <;> simp_all
  · intro d t k hk hnone
    rcases h1 : lookupKey "demand_id" d with _ | v1
    · exact ⟨"demand_id", by simp [Demand.requiredKeys], h1,
        by simp [Demand.from_dict, pyIndex_eq_error h1, except_bind_error]⟩
    rcases h2 : lookupKey "demand_type" d with _ | v2
    · exact ⟨"demand_type", by simp [Demand.requiredKeys], h2,
        by simp [Demand.from_dict, pyIndex_eq_ok h1, pyIndex_eq_error h2,
          except_bind_ok, except_bind_error]⟩
    rcases h3 : lookupKey "description" d with _ | v3
    · exact ⟨"description", by simp [Demand.requiredKeys], h3,
        by simp [Demand.from_dict, pyIndex_eq_ok h1, pyIndex_eq_ok h2,
          pyIndex_eq_error h3, except_bind_ok, except_bind_error]⟩
    rcases h4 : lookupKey "publisher_id" d with _ | v4
    · exact ⟨"publisher_id", by simp [Demand.requiredKeys], h4,
        by simp [Demand.from_dict, pyIndex_eq_ok h1, pyIndex_eq_ok h2,
          pyIndex_eq_ok h3, pyIndex_eq_error h4, except_bind_ok,
          except_bind_error, except_map_error]⟩
    · exfalso
      simp [Demand.requiredKeys] at hk
      rcases hk with rfl | rfl | rfl | rfl <;> simp_all
  · intro d t k hk hnone
    rcases h1 : lookupKey "application_id" d with _ | v1
    · exact ⟨"application_id", by simp [Application.requiredKeys], h1,
        by simp [Application.from_dict, pyIndex_eq_error h1, except_bind_error]⟩
    rcases h2 : lookupKey "app_type" d with _ | v2
    · exact ⟨"app_type", by simp [Application.requiredKeys], h2,
        by simp [Application.from_dict, pyIndex_eq_ok h1, pyIndex_eq_error h2,
          except_bind_ok, except_bind_error]⟩
    rcases h3 : lookupKey "content" d with _ | v3
    · exact ⟨"content", by simp [Application.requiredKeys], h3,
        by simp [Application.from_dict, pyIndex_eq_ok h1, pyIndex_eq_ok h2,
          pyIndex_eq_error h3, except_bind_ok, except_bind_error]⟩
    rcases h4 : lookupKey "applicant_id" d with _ | v4
    · exact ⟨"applicant_id", by simp [Application.requiredKeys], h4,
        by simp [Application.from_dict, pyIndex_eq_ok h1, pyIndex_eq_ok h2,
          pyIndex_eq_ok h3, pyIndex_eq_error h4, except_bind_ok,
          except_bind_error, except_map_error]⟩
    · exfalso
      simp [Application.requiredKeys] at hk
      rcases hk with rfl | rfl | rfl | rfl <;> simp_all

/-- Witness for C2: the empty mapping fails for every one of the five
entities with a `KeyError` for an absent required key. -/
theorem from_dict_missing_required_fails_witness :
    (∃ k', k' ∈ User.requiredKeys ∧ lookupKey k' [] = none ∧
      User.from_dict [] = Except.error ("KeyError: " ++ k')) ∧
    (∃ k', k' ∈ Item.requiredKeys ∧ lookupKey k' [] = none ∧
      Item.from_dict [] ⟨2025, 10, 12, 0, 0, 0⟩ =
        Except.error ("KeyError: " ++ k')) ∧
    (∃ k', k' ∈ ItemType.requiredKeys ∧ lookupKey k' [] = none ∧
      ItemType.from_dict [] = Except.error ("KeyError: " ++ k')) ∧
    (∃ k', k' ∈ Demand.requiredKeys ∧ lookupKey k' [] = none ∧
      Demand.from_dict [] ⟨2025, 10, 12, 0, 0, 0⟩ =
        Except.error ("KeyError: " ++ k')) ∧
    (∃ k', k' ∈ Application.requiredKeys ∧ lookupKey k' [] = none ∧
      Application.from_dict [] ⟨2025, 10, 12, 0, 0, 0⟩ =
        Except.error ("KeyError: " ++ k')) :=
  ⟨from_dict_missing_required_fails.1 [] "user_id"
      (by simp [User.requiredKeys]) rfl,
    from_dict_missing_required_fails.2.1 [] ⟨2025, 10, 12, 0, 0, 0⟩ "item_id"
      (by simp [Item.requiredKeys]) rfl,
    from_dict_missing_required_fails.2.2.1 [] "type_id"
      (by simp [ItemType.requiredKeys]) rfl,
    from_dict_missing_required_fails.2.2.2.1 [] ⟨2025, 10, 12, 0, 0, 0⟩
      "demand_id" (by simp [Demand.requiredKeys]) rfl,
    from_dict_missing_required_fails.2.2.2.2 [] ⟨2025, 10, 12, 0, 0, 0⟩
      "application_id" (by simp [Application.requiredKeys]) rfl⟩

/-- C3: for every entity instance, `to_dict` returns a flat mapping whose
key list is exactly the entity's field names, each key mapped to that
field's current value. -/
theorem to_dict_keys_exact :
    (∀ u : User,
      Dict.keys (User.to_dict u) =
          ["user_id", "username", "password", "contact_info", "role"] ∧
        lookupKey "user_id" (User.to_dict u) = some u.user_id ∧
        lookupKey "username" (User.to_dict u) = some u.username ∧
        lookupKey "password" (User.to_dict u) = some u.password ∧
        lookupKey "contact_info" (User.to_dict u) = some u.contact_info ∧
        lookupKey "role" (User.to_dict u) = some u.role) ∧
    (∀ i : Item,
      Dict.keys (Item.to_dict i) =
          ["item_id", "item_name", "description", "item_type", "image",
            "contact_info", "status", "owner_id", "create_time"] ∧
        lookupKey "item_id" (Item.to_dict i) = some i.item_id ∧
        lookupKey "item_name" (Item.to_dict i) = some i.item_name ∧
        lookupKey "description" (Item.to_dict i) = some i.description ∧
        lookupKey "item_type" (Item.to_dict i) = some i.item_type ∧
        lookupKey "image" (Item.to_dict i) = some i.image ∧
        lookupKey "contact_info" (Item.to_dict i) = some i.contact_info ∧
        lookupKey "status" (Item.to_dict i) = some i.status ∧
        lookupKey "owner_id" (Item.to_dict i) = some i.owner_id ∧
        lookupKey "create_time" (Item.to_dict i) = some i.create_time) ∧
    (∀ ty : ItemType,
      Dict.keys (ItemType.to_dict ty) = ["type_id", "type_name", "attributes"] ∧
        lookupKey "type_id" (ItemType.to_dict ty) = some ty.type_id ∧
        lookupKey "type_name" (ItemType.to_dict ty) = some ty.type_name ∧
        lookupKey "attributes" (ItemType.to_dict ty) = some ty.attributes) ∧
    (∀ dm : Demand,
      Dict.keys (Demand.to_dict dm) =
          ["demand_id", "demand_type", "description", "publisher_id",
            "create_time"] ∧
        lookupKey "demand_id" (Demand.to_dict dm) = some dm.demand_id ∧
        lookupKey "demand_type" (Demand.to_dict dm) = some dm.demand_type ∧
        lookupKey "description" (Demand.to_dict dm) = some dm.description ∧
        lookupKey "publisher_id" (Demand.to_dict dm) = some dm.publisher_id ∧
        lookupKey "create_time" (Demand.to_dict dm) = some dm.create_time) ∧
    (∀ ap : Application,
      Dict.keys (Application.to_dict ap) =
          ["application_id", "app_type", "content", "app_status",
            "applicant_id", "create_time"] ∧
        lookupKey "application_id" (Application.to_dict ap) = some ap.application_id ∧
        lookupKey "app_type" (Application.to_dict ap) = some ap.app_type ∧
        lookupKey "content" (Application.to_dict ap) = some ap.content ∧
        lookupKey "app_status" (Application.to_dict ap) = some ap.app_status ∧
        lookupKey "applicant_id" (Application.to_dict ap) = some ap.applicant_id ∧
        lookupKey "create_time" (Application.to_dict ap) = some ap.create_time) := by
  exact ⟨fun u => ⟨rfl, rfl, rfl, rfl, rfl, rfl⟩,
    fun i => ⟨rfl, rfl, rfl, rfl, rfl, rfl, rfl, rfl, rfl, rfl⟩,
    fun ty => ⟨rfl, rfl, rfl, rfl⟩,
    fun dm => ⟨rfl, rfl, rfl, rfl, rfl, rfl⟩,
    fun ap => ⟨rfl, rfl, rfl, rfl, rfl, rfl, rfl⟩⟩

/-- C6: for every `ItemType`, the round trip
`from_dict (to_dict (construct type_id type_name attributes))` yields an
entity whose attributes sequence has the same elements in the same order as
the original list. -/
theorem itemtype_attributes_roundtrip :
    ∀ (tid tname : PyVal) (attrs : List String),
      ItemType.from_dict (ItemType.to_dict
          (ItemType.construct tid tname (PyVal.strList attrs))) =
        Except.ok (ItemType.construct tid tname (PyVal.strList attrs)) ∧
      (ItemType.construct tid tname (PyVal.strList attrs)).attributes =
        PyVal.strList attrs :=
  fun _ _ _ => ⟨rfl, rfl⟩

/-- C7: for every entity instance, calling `to_dict` twice without mutation
yields two equal mappings, and `to_dict` has no side effects: in the
state-passing view of the method, the post-state of `self` equals its
pre-state, and serializing that post-state again gives the same mapping. -/
theorem to_dict_pure_and_repeatable :
    (∀ u : User, (User.toDictSt u).2 = u ∧
      (User.toDictSt ((User.toDictSt u).2)).1 = (User.toDictSt u).1) ∧
    (∀ i : Item, (Item.toDictSt i).2 = i ∧
      (Item.toDictSt ((Item.toDictSt i).2)).1 = (Item.toDictSt i).1) ∧
    (∀ ty : ItemType, (ItemType.toDictSt ty).2 = ty ∧
      (ItemType.toDictSt ((ItemType.toDictSt ty).2)).1 = (ItemType.toDictSt ty).1) ∧
    (∀ dm : Demand, (Demand.toDictSt dm).2 = dm ∧
      (Demand.toDictSt ((Demand.toDictSt dm).2)).1 = (Demand.toDictSt dm).1) ∧
    (∀ ap : Application, (Application.toDictSt ap).2 = ap ∧
      (Application.toDictSt ((Application.toDictSt ap).2)).1 = (Application.toDictSt ap).1) :=
  ⟨fun _ => ⟨rfl, rfl⟩, fun _ => ⟨rfl, rfl⟩, fun _ => ⟨rfl, rfl⟩,
    fun _ => ⟨rfl, rfl⟩, fun _ => ⟨rfl, rfl⟩⟩

/-- C8: for `Item`, `Demand` and `Application`, `create_time` is not a
constructor input: construction always sets `create_time` to the current
clock reading `t` formatted as `YYYY-MM-DD HH:MM:SS`, regardless of the
other arguments. -/
theorem construct_sets_create_time_to_clock :
    (∀ (a b c d e f : PyVal) (img st : Option PyVal) (t : PyDateTime),
      (Item.construct a b c d e f img st t).create_time =
          PyVal.str (strftime t) ∧
        isTimestampFormat (strftime t) = true) ∧
    (∀ (a b c d : PyVal) (t : PyDateTime),
      (Demand.construct a b c d t).create_time = PyVal.str (strftime t) ∧
        isTimestampFormat (strftime t) = true) ∧
    (∀ (a b c d : PyVal) (st : Option PyVal) (t : PyDateTime),
      (Application.construct a b c d st t).create_time =
          PyVal.str (strftime t) ∧
        isTimestampFormat (strftime t) = true) :=
  ⟨fun _ _ _ _ _ _ _ _ t => ⟨rfl, strftime_isTimestampFormat t⟩,
    fun _ _ _ _ t => ⟨rfl, strftime_isTimestampFormat t⟩,
    fun _ _ _ _ _ t => ⟨rfl, strftime_isTimestampFormat t⟩⟩

/-- C9: for every entity, `from_dict` has no side effects on its input: in
the state-passing view, the mapping after the call equals the mapping before
it, whether the call succeeds or fails. -/
theorem from_dict_preserves_input :
    (∀ d : Dict, (User.fromDictSt d).2 = d) ∧
    (∀ (d : Dict) (t : PyDateTime), (Item.fromDictSt d t).2 = d) ∧
    (∀ d : Dict, (ItemType.fromDictSt d).2 = d) ∧
    (∀ (d : Dict) (t : PyDateTime), (Demand.fromDictSt d t).2 = d) ∧
    (∀ (d : Dict) (t : PyDateTime), (Application.fromDictSt d t).2 = d) :=
  ⟨fun _ => rfl, fun _ _ => rfl, fun _ => rfl, fun _ _ => rfl, fun _ _ => rfl⟩

/-- C4: every optional field defaults when omitted, both at construction
(argument omitted, modelled by `none`) and on deserialize (key absent from
the mapping): `User.role` to `"普通用户"`, `Item.image` to `""`,
`Item.status` to `"已发布"`, `Application.app_status` to `"待处理"`. -/
theorem optional_field_defaults :
    (∀ a b c d : PyVal,
      (User.construct a b c d none).role = PyVal.str "普通用户") ∧
    (∀ (d : Dict) (u : User), User.from_dict d = Except.ok u →
      lookupKey "role" d = none → u.role = PyVal.str "普通用户") ∧
    (∀ (a b c d e f : PyVal) (st : Option PyVal) (t : PyDateTime),
      (Item.construct a b c d e f none st t).image = PyVal.str "") ∧
    (∀ (a b c d e f : PyVal) (img : Option PyVal) (t : PyDateTime),
      (Item.construct a b c d e f img none t).status = PyVal.str "已发布") ∧
    (∀ (d : Dict) (t : PyDateTime) (i : Item), Item.from_dict d t = Except.ok i →
      (lookupKey "image" d = none → i.image = PyVal.str "") ∧
      (lookupKey "status" d = none → i.status = PyVal.str "已发布")) ∧
    (∀ (a b c d : PyVal) (t : PyDateTime),
      (Application.construct a b c d none t).app_status = PyVal.str "待处理") ∧
    (∀ (d : Dict) (t : PyDateTime) (ap : Application),
      Application.from_dict d t = Except.ok ap →
      lookupKey "app_status" d = none → ap.app_status = PyVal.str "待处理") := by
  refine ⟨fun _ _ _ _ => rfl, ?_, fun _ _ _ _ _ _ _ _ => rfl,
    fun _ _ _ _ _ _ _ _ => rfl, ?_, fun _ _ _ _ _ => rfl, ?_⟩
  · intro d u h hr
    rw [User.from_dict_ok_role h]
    simp [pyGet, hr]
  · intro d t i h
    obtain ⟨himg, hst, -⟩ := Item.from_dict_ok_optional_fields h
    exact ⟨fun hn => by rw [himg]; simp [pyGet, hn],
      fun hn => by rw [hst]; simp [pyGet, hn]⟩
  · intro d t ap h hn
    rw [(Application.from_dict_ok_status_time h).1]
    simp [pyGet, hn]

/-- Witness for C4: concrete constructions and deserializations with the
optional fields omitted materialize the stated defaults. -/
theorem optional_field_defaults_witness :
    (User.construct (PyVal.str "u") (PyVal.str "n") (PyVal.str "p")
      (PyVal.str "c") none).role = PyVal.str "普通用户" ∧
    (⟨PyVal.str "u", PyVal.str "n", PyVal.str "p", PyVal.str "c",
      PyVal.str "普通用户"⟩ : User).role = PyVal.str "普通用户" ∧
    (Item.construct (PyVal.str "i") (PyVal.str "n") (PyVal.str "d")
      (PyVal.str "t") (PyVal.str "c") (PyVal.str "o") none none
      ⟨2025, 10, 12, 0, 0, 0⟩).image = PyVal.str "" ∧
    (Item.construct (PyVal.str "i") (PyVal.str "n") (PyVal.str "d")
      (PyVal.str "t") (PyVal.str "c") (PyVal.str "o") none none
      ⟨2025, 10, 12, 0, 0, 0⟩).status = PyVal.str "已发布" ∧
    ((⟨PyVal.str "i", PyVal.str "n", PyVal.str "d", PyVal.str "t",
        PyVal.str "", PyVal.str "c", PyVal.str "已发布", PyVal.str "o",
        PyVal.str (strftime ⟨2025, 10, 12, 0, 0, 0⟩)⟩ : Item).image =
          PyVal.str "" ∧
      (⟨PyVal.str "i", PyVal.str "n", PyVal.str "d", PyVal.str "t",
        PyVal.str "", PyVal.str "c", PyVal.str "已发布", PyVal.str "o",
        PyVal.str (strftime ⟨2025, 10, 12, 0, 0, 0⟩)⟩ : Item).status =
          PyVal.str "已发布") ∧
    (Application.construct (PyVal.str "a") (PyVal.str "t") (PyVal.str "c")
      (PyVal.str "p") none ⟨2025, 10, 12, 0, 0, 0⟩).app_status =
        PyVal.str "待处理" ∧
    (⟨PyVal.str "a", PyVal.str "t", PyVal.str "c", PyVal.str "待处理",
      PyVal.str "p", PyVal.str (strftime ⟨2025, 10, 12, 0, 0, 0⟩)⟩ :
        Application).app_status = PyVal.str "待处理" :=
  ⟨optional_field_defaults.1 (PyVal.str "u") (PyVal.str "n") (PyVal.str "p")
      (PyVal.str "c"),
    optional_field_defaults.2.1
      [("user_id", PyVal.str "u"), ("username", PyVal.str "n"),
        ("password", PyVal.str "p"), ("contact_info", PyVal.str "c")]
      ⟨PyVal.str "u", PyVal.str "n", PyVal.str "p", PyVal.str "c",
        PyVal.str "普通用户"⟩ rfl rfl,
    optional_field_defaults.2.2.1 (PyVal.str "i") (PyVal.str "n")
      (PyVal.str "d") (PyVal.str "t") (PyVal.str "c") (PyVal.str "o") none
      ⟨2025, 10, 12, 0, 0, 0⟩,
    optional_field_defaults.2.2.2.1 (PyVal.str "i") (PyVal.str "n")
      (PyVal.str "d") (PyVal.str "t") (PyVal.str "c") (PyVal.str "o") none
      ⟨2025, 10, 12, 0, 0, 0⟩,
    ⟨(optional_field_defaults.2.2.2.2.1
        [("item_id", PyVal.str "i"), ("item_name", PyVal.str "n"),
          ("description", PyVal.str "d"), ("item_type", PyVal.str "t"),
          ("contact_info", PyVal.str "c"), ("owner_id", PyVal.str "o")]
        ⟨2025, 10, 12, 0, 0, 0⟩
        ⟨PyVal.str "i", PyVal.str "n", PyVal.str "d", PyVal.str "t",
          PyVal.str "", PyVal.str "c", PyVal.str "已发布", PyVal.str "o",
          PyVal.str (strftime ⟨2025, 10, 12, 0, 0, 0⟩)⟩ rfl).1 rfl,
      (optional_field_defaults.2.2.2.2.1
        [("item_id", PyVal.str "i"), ("item_name", PyVal.str "n"),
          ("description", PyVal.str "d"), ("item_type", PyVal.str "t"),
          ("contact_info", PyVal.str "c"), ("owner_id", PyVal.str "o")]
        ⟨2025, 10, 12, 0, 0, 0⟩
        ⟨PyVal.str "i", PyVal.str "n", PyVal.str "d", PyVal.str "t",
          PyVal.str "", PyVal.str "c", PyVal.str "已发布", PyVal.str "o",
          PyVal.str (strftime ⟨2025, 10, 12, 0, 0, 0⟩)⟩ rfl).2 rfl⟩,
    optional_field_defaults.2.2.2.2.2.1 (PyVal.str "a") (PyVal.str "t")
      (PyVal.str "c") (PyVal.str "p") ⟨2025, 10, 12, 0, 0, 0⟩,
    optional_field_defaults.2.2.2.2.2.2
      [("application_id", PyVal.str "a"), ("app_type", PyVal.str "t"),
        ("content", PyVal.str "c"), ("applicant_id", PyVal.str "p")]
      ⟨2025, 10, 12, 0, 0, 0⟩
      ⟨PyVal.str "a", PyVal.str "t", PyVal.str "c", PyVal.str "待处理",
        PyVal.str "p", PyVal.str (strftime ⟨2025, 10, 12, 0, 0, 0⟩)⟩ rfl rfl⟩

/-- C5: for `Item`, `Demand` and `Application`, deserializing a mapping that
contains the required fields but omits `create_time` succeeds and fabricates
a fresh timestamp: the entity's `create_time` is the clock reading `t` at the
moment of the `from_dict` call, formatted, and that string is a syntactically
valid `YYYY-MM-DD HH:MM:SS` timestamp. -/
theorem from_dict_fabricates_create_time :
    (∀ (d : Dict) (t : PyDateTime) (i : Item),
      lookupKey "create_time" d = none → Item.from_dict d t = Except.ok i →
      i.create_time = PyVal.str (strftime t) ∧
        isTimestampFormat (strftime t) = true) ∧
    (∀ (d : Dict) (t : PyDateTime) (dm : Demand),
      lookupKey "create_time" d = none → Demand.from_dict d t = Except.ok dm →
      dm.create_time = PyVal.str (strftime t) ∧
        isTimestampFormat (strftime t) = true) ∧
    (∀ (d : Dict) (t : PyDateTime) (ap : Application),
      lookupKey "create_time" d = none →
      Application.from_dict d t = Except.ok ap →
      ap.create_time = PyVal.str (strftime t) ∧
        isTimestampFormat (strftime t) = true) := by
  refine ⟨?_, ?_, ?_⟩
  · intro d t i hn h
    refine ⟨?_, strftime_isTimestampFormat t⟩
    obtain ⟨-, -, hct⟩ := Item.from_dict_ok_optional_fields h
    rw [hct]
    simp [pyGet, hn]
  · intro d t dm hn h
    refine ⟨?_, strftime_isTimestampFormat t⟩
    rw [Demand.from_dict_ok_create_time h]
    simp [pyGet, hn]
  · intro d t ap hn h
    refine ⟨?_, strftime_isTimestampFormat t⟩
    rw [(Application.from_dict_ok_status_time h).2]
    simp [pyGet, hn]

/-- Witness for C5: concrete mappings with all required fields and no
`create_time` deserialize to entities stamped with the formatted clock
reading at the call. -/
theorem from_dict_fabricates_create_time_witness :
    ((⟨PyVal.str "i", PyVal.str "n", PyVal.str "d", PyVal.str "t",
        PyVal.str "", PyVal.str "c", PyVal.str "已发布", PyVal.str "o",
        PyVal.str (strftime ⟨2025, 10, 12, 0, 0, 0⟩)⟩ : Item).create_time =
          PyVal.str (strftime ⟨2025, 10, 12, 0, 0, 0⟩) ∧
      isTimestampFormat (strftime ⟨2025, 10, 12, 0, 0, 0⟩) = true) ∧
    ((⟨PyVal.str "d", PyVal.str "t", PyVal.str "x", PyVal.str "p",
        PyVal.str (strftime ⟨2025, 10, 12, 0, 0, 0⟩)⟩ : Demand).create_time =
          PyVal.str (strftime ⟨2025, 10, 12, 0, 0, 0⟩) ∧
      isTimestampFormat (strftime ⟨2025, 10, 12, 0, 0, 0⟩) = true) ∧
    ((⟨PyVal.str "a", PyVal.str "t", PyVal.str "c", PyVal.str "待处理",
        PyVal.str "p",
        PyVal.str (strftime ⟨2025, 10, 12, 0, 0, 0⟩)⟩ :
          Application).create_time =
          PyVal.str (strftime ⟨2025, 10, 12, 0, 0, 0⟩) ∧
      isTimestampFormat (strftime ⟨2025, 10, 12, 0, 0, 0⟩) = true) :=
  ⟨from_dict_fabricates_create_time.1
      [("item_id", PyVal.str "i"), ("item_name", PyVal.str "n"),
        ("description", PyVal.str "d"), ("item_type", PyVal.str "t"),
        ("contact_info", PyVal.str "c"), ("owner_id", PyVal.str "o")]
      ⟨2025, 10, 12, 0, 0, 0⟩
      ⟨PyVal.str "i", PyVal.str "n", PyVal.str "d", PyVal.str "t",
        PyVal.str "", PyVal.str "c", PyVal.str "已发布", PyVal.str "o",
        PyVal.str (strftime ⟨2025, 10, 12, 0, 0, 0⟩)⟩ rfl rfl,
    from_dict_fabricates_create_time.2.1
      [("demand_id", PyVal.str "d"), ("demand_type", PyVal.str "t"),
        ("description", PyVal.str "x"), ("publisher_id", PyVal.str "p")]
      ⟨2025, 10, 12, 0, 0, 0⟩
      ⟨PyVal.str "d", PyVal.str "t", PyVal.str "x", PyVal.str "p",
        PyVal.str (strftime ⟨2025, 10, 12, 0, 0, 0⟩)⟩ rfl rfl,
    from_dict_fabricates_create_time.2.2
      [("application_id", PyVal.str "a"), ("app_type", PyVal.str "t"),
        ("content", PyVal.str "c"), ("applicant_id", PyVal.str "p")]
      ⟨2025, 10, 12, 0, 0, 0⟩
      ⟨PyVal.str "a", PyVal.str "t", PyVal.str "c", PyVal.str "待处理",
        PyVal.str "p", PyVal.str (strftime ⟨2025, 10, 12, 0, 0, 0⟩)⟩ rfl rfl⟩

/-- C10: for every entity, `from_dict` silently ignores keys that are not
fields of that entity: deserializing any mapping gives the same result as
deserializing the mapping restricted to the entity's field keys, so extra
unrecognized keys never change the outcome. -/
theorem from_dict_ignores_unknown_keys :
    (∀ d : Dict,
      User.from_dict (filterKeys User.fieldKeys d) = User.from_dict d) ∧
    (∀ (d : Dict) (t : PyDateTime),
      Item.from_dict (filterKeys Item.fieldKeys d) t = Item.from_dict d t) ∧
    (∀ d : Dict,
      ItemType.from_dict (filterKeys ItemType.fieldKeys d) =
        ItemType.from_dict d) ∧
    (∀ (d : Dict) (t : PyDateTime),
      Demand.from_dict (filterKeys Demand.fieldKeys d) t =
        Demand.from_dict d t) ∧
    (∀ (d : Dict) (t : PyDateTime),
      Application.from_dict (filterKeys Application.fieldKeys d) t =
        Application.from_dict d t) := by
  refine ⟨?_, ?_, ?_, ?_, ?_⟩
  · intro d
    simp only [User.from_dict, pyIndex, pyGet,
      lookupKey_filterKeys User.fieldKeys "user_id" d (by simp [User.fieldKeys]),
      lookupKey_filterKeys User.fieldKeys "username" d (by simp [User.fieldKeys]),
      lookupKey_filterKeys User.fieldKeys "password" d (by simp [User.fieldKeys]),
      lookupKey_filterKeys User.fieldKeys "contact_info" d (by simp [User.fieldKeys]),
      lookupKey_filterKeys User.fieldKeys "role" d (by simp [User.fieldKeys])]
  · intro d t
    simp only [Item.from_dict, pyIndex, pyGet,
      lookupKey_filterKeys Item.fieldKeys "item_id" d (by simp [Item.fieldKeys]),
      lookupKey_filterKeys Item.fieldKeys "item_name" d (by simp [Item.fieldKeys]),
      lookupKey_filterKeys Item.fieldKeys "description" d (by simp [Item.fieldKeys]),
      lookupKey_filterKeys Item.fieldKeys "item_type" d (by simp [Item.fieldKeys]),
      lookupKey_filterKeys Item.fieldKeys "image" d (by simp [Item.fieldKeys]),
      lookupKey_filterKeys Item.fieldKeys "contact_info" d (by simp [Item.fieldKeys]),
      lookupKey_filterKeys Item.fieldKeys "status" d (by simp [Item.fieldKeys]),
      lookupKey_filterKeys Item.fieldKeys "owner_id" d (by simp [Item.fieldKeys]),
      lookupKey_filterKeys Item.fieldKeys "create_time" d (by simp [Item.fieldKeys])]
  · intro d
    simp only [ItemType.from_dict, pyIndex,
      lookupKey_filterKeys ItemType.fieldKeys "type_id" d (by simp [ItemType.fieldKeys]),
      lookupKey_filterKeys ItemType.fieldKeys "type_name" d (by simp [ItemType.fieldKeys]),
      lookupKey_filterKeys ItemType.fieldKeys "attributes" d (by simp [ItemType.fieldKeys])]
  · intro d t
    simp only [Demand.from_dict, pyIndex, pyGet,
      lookupKey_filterKeys Demand.fieldKeys "demand_id" d (by simp [Demand.fieldKeys]),
      lookupKey_filterKeys Demand.fieldKeys "demand_type" d (by simp [Demand.fieldKeys]),
      lookupKey_filterKeys Demand.fieldKeys "description" d (by simp [Demand.fieldKeys]),
      lookupKey_filterKeys Demand.fieldKeys "publisher_id" d (by simp [Demand.fieldKeys]),
      lookupKey_filterKeys Demand.fieldKeys "create_time" d (by simp [Demand.fieldKeys])]
  · intro d t
    simp only [Application.from_dict, pyIndex, pyGet,
      lookupKey_filterKeys Application.fieldKeys "application_id" d (by simp [Application.fieldKeys]),
      lookupKey_filterKeys Application.fieldKeys "app_type" d (by simp [Application.fieldKeys]),
      lookupKey_filterKeys Application.fieldKeys "content" d (by simp [Application.fieldKeys]),
      lookupKey_filterKeys Application.fieldKeys "app_status" d (by simp [Application.fieldKeys]),
      lookupKey_filterKeys Application.fieldKeys "applicant_id" d (by simp [Application.fieldKeys]),
      lookupKey_filterKeys Application.fieldKeys "create_time" d (by simp [Application.fieldKeys])]

end Entities
